import Mathlib

/-
Verification development for the coroutine (actor) library.

Modelling conventions used throughout this file:
- Messages are opaque (`interface\x7b\x7d` in the source), modelled by a type
  parameter `a`.
- The mutex `mailboxLock` serialises mailbox access; a locked region of the
  source is translated as one atomic step of the model.
- The unbuffered wake channel `receiver` is modelled in two ways. In the pure
  per-call embeddings, the whole blocking wait of a call is summarised by a
  `WaitEnv` oracle describing what the environment did during the wait
  (which messages arrived, whether an external stop flipped `running`). In the
  interleaving step model `Sys`/`step`, the rendezvous is explicit: a
  non-blocking notify succeeds exactly when the actor task is blocked on the
  channel, and is skipped otherwise (the select-with-default in the source);
  once the terminal cleanup has closed the channel, a notify instead panics
  the sending goroutine (a send on a closed channel is a ready select case
  that proceeds by panicking). The channel state seen by one Send call is
  `WakeChan`, and the notify outcome is `NotifyRes`.
- `panic(Stop\x7b\x7d)` (the cancellation unwind) is modelled as a dedicated result
  constructor (`RecvRes.unwind`, `Option.none` for Pause), distinct from
  ordinary returns and from foreign panics.
- `time.Duration` is an integer number of nanoseconds, modelled as `Int`.
-/

/-- The value passed to the Go panic whenever a coroutine is stopping itself
(type `Stop struct\x7b\x7d` in start.go). -/
inductive Stop where
  | mk
deriving DecidableEq

/-- The shared actor state (struct `Embeddable` in embed.go). The two timers
and the wake channel live in the Go runtime and are modelled separately
(`GoTimer`, and the step model `Sys`). -/
structure Embeddable (a : Type) where
  id : Nat
  name : String
  mailbox : List a
  running : Bool
deriving DecidableEq

/-- Result of a receive-style call: either the Go return pair
`(interface\x7b\x7d, bool)` together with the post-state, or the cancellation
unwind `panic(Stop\x7b\x7d)`. -/
inductive RecvRes (a : Type) where
  | ret (v : Option a) (ok : Bool) (e : Embeddable a)
  | unwind
deriving DecidableEq

/-- The shared tail of the locked section of RecvFor/RecvImmediate
(embed.go lines 121-129 and 142-151): if the mailbox is empty return
`(nil, false)`, otherwise remove and return the head. -/
def takeHead {a : Type} (e : Embeddable a) : RecvRes a :=
  match e.mailbox with
  | [] => RecvRes.ret none false e
  | m :: rest => RecvRes.ret (some m) true { e with mailbox := rest }

/-- Embedding of `Embeddable.RecvImmediate` (embed.go lines 137-152):
check `running` and unwind if false; otherwise dequeue the head if any,
else return `(nil, false)`. Never suspends. -/
def Embeddable.RecvImmediate {a : Type} (e : Embeddable a) : RecvRes a :=
  if e.running = false then RecvRes.unwind
  else takeHead e

/-- Oracle describing what happened while a call was suspended waiting:
the messages enqueued during the wait (in enqueue order) and whether an
external `Stop()` flipped `running` to false during the wait. An empty
`arrivals` with `stopRequested = false` corresponds to a timeout wake or a
stale notify. -/
structure WaitEnv (a : Type) where
  arrivals : List a
  stopRequested : Bool
deriving DecidableEq

/-- The state of the actor as observed right after waking from a suspension,
given what the environment did during the wait. -/
def wakeState {a : Type} (env : WaitEnv a) (e : Embeddable a) : Embeddable a :=
  { e with mailbox := e.mailbox ++ env.arrivals,
           running := e.running && !env.stopRequested }

/-- Embedding of `Embeddable.RecvFor` (embed.go lines 91-130): unwind if not
running; delegate to `RecvImmediate` when the duration is non-positive;
otherwise, when the mailbox is empty, suspend (summarised by the `WaitEnv`
oracle), re-check `running` after the wake and unwind if false; finally
dequeue the head if present, else return `(nil, false)`. -/
def Embeddable.RecvFor {a : Type} (e : Embeddable a) (d : Int)
    (env : WaitEnv a) : RecvRes a :=
  if e.running = false then RecvRes.unwind
  else if d ≤ 0 then Embeddable.RecvImmediate e
  else if e.mailbox.isEmpty then
    let e1 := wakeState env e
    if e1.running = false then RecvRes.unwind
    else takeHead e1
  else takeHead e

/-- Embedding of `Embeddable.Pause` (embed.go lines 33-55): unwind if not
running; otherwise sleep on the wait timer (the drain-then-reset protocol of
that timer is modelled by `drainThenReset` below), then re-check `running`
after the timer fires and unwind if an external stop happened during the
pause; otherwise return control to the coroutine. `stopDuring` says whether
an external `Stop()` flipped `running` while the coroutine was paused. -/
def Embeddable.Pause {a : Type} (e : Embeddable a) (stopDuring : Bool) :
    Option (Embeddable a) :=
  if e.running = false then none
  else
    let e1 := { e with running := e.running && !stopDuring }
    if e1.running = false then none
    else some e1

/-- A diagnostic record emitted by `log.Printf`: the stop-misuse messages
include the id and the name of the coroutine. -/
structure LogRec where
  cid : Nat
  cname : String
deriving DecidableEq

/-- The wake channel (`receiver`, an unbuffered `chan bool`) as seen by one
non-blocking send: whether the terminal cleanup has already closed it
(start.go lines 62 and 109), and whether the actor task is currently
blocked receiving on it. -/
structure WakeChan where
  closedFlag : Bool
  waiterBlocked : Bool
deriving DecidableEq

/-- Outcome of the non-blocking notify
`select \x7b case receiver <- true: default: \x7d` (embed.go lines 195-198 and
229-232). Per the Go semantics, a send on a closed channel can always
proceed, by panicking, so on a closed channel the select chooses the send
case over default and the sender panics with send on closed channel;
otherwise the send completes exactly when a receiver is blocked, and the
default is taken (the sender continues immediately) when none is. -/
inductive NotifyRes where
  | delivered
  | skipped
  | panicked
deriving DecidableEq

/-- The non-blocking notify of the wake channel. -/
def tryNotify (ch : WakeChan) : NotifyRes :=
  if ch.closedFlag then NotifyRes.panicked
  else if ch.waiterBlocked then NotifyRes.delivered
  else NotifyRes.skipped

/-- The locked enqueue half of `embeddableRef.Send` (embed.go lines
189-191): take the lock, append the message at the tail of the mailbox,
release the lock. Total, and never reads `running`. -/
def sendEnqueue {a : Type} (e : Embeddable a) (v : a) : Embeddable a :=
  { e with mailbox := e.mailbox ++ [v] }

/-- Embedding of `embeddableRef.Send` (embed.go lines 188-199): the locked
tail append followed by the non-blocking notify of the wake channel.
Returns the new shared state (the append has already happened even when the
notify panics, since it precedes the select) and the notify outcome. The
state component never depends on `running` or on the channel. -/
def embeddableRef.Send {a : Type} (e : Embeddable a) (v : a)
    (ch : WakeChan) : Embeddable a × NotifyRes :=
  (sendEnqueue e v, tryNotify ch)

/-- Embedding of `embeddableRef.Stop` (embed.go lines 219-233): when the
coroutine is not running, log a diagnostic with its id and name and return
with the state unchanged; otherwise set `running` to false (the subsequent
non-blocking notify is `Ev.notify` in the step model). Returns the new state
and the emitted diagnostics. -/
def embeddableRef.Stop {a : Type} (e : Embeddable a) :
    Embeddable a × List LogRec :=
  if e.running = false then (e, [⟨e.id, e.name⟩])
  else ({ e with running := false }, [])

/-- Embedding of `Embeddable.Stop` (embed.go lines 156-163), the self-stop:
when the coroutine is not running, log a diagnostic with its id and name;
in every case set `running` to false and unwind with the cancellation value
`Stop.mk`. Returns the new state, the emitted diagnostics and the panic
value. -/
def Embeddable.Stop {a : Type} (e : Embeddable a) :
    Embeddable a × List LogRec × Stop :=
  let logs := if e.running = false then [⟨e.id, e.name⟩] else []
  ({ e with running := false }, logs, Stop.mk)

/-- Model of a reusable Go `time.Timer` together with its one-slot
notification channel. `epoch` counts the armings (each `Reset` starts a new
arming); `active` says the timer is armed and has not fired yet; `pending`
holds the unconsumed expiration event sitting in the channel, tagged with
the epoch of the arming that produced it. Event delivery is modelled as
atomic: a firing deposits its event into the channel in one step. -/
structure GoTimer where
  epoch : Nat
  active : Bool
  pending : Option Nat
deriving DecidableEq

/-- `Timer.Stop`: returns true exactly when it stops the timer before it has
fired; never touches the channel. -/
def timerStop (t : GoTimer) : Bool × GoTimer :=
  (t.active, { t with active := false })

/-- The runtime firing of an armed timer: it becomes inactive and, if the
one-slot channel is free, the expiration event (tagged with the current
arming epoch) is deposited; a firing into an occupied channel is dropped. -/
def timerFire (t : GoTimer) : GoTimer :=
  if t.active then
    { t with active := false,
             pending := match t.pending with
                        | none => some t.epoch
                        | some k => some k }
  else t

/-- Draining the timer channel (the `<-timer.C` in the drain protocol). -/
def timerDrain (t : GoTimer) : GoTimer :=
  { t with pending := none }

/-- `Timer.Reset`: arms the timer for a fresh countdown, starting a new
arming epoch. The concrete duration does not affect the event logic. -/
def timerReset (t : GoTimer) : GoTimer :=
  { t with active := true, epoch := t.epoch + 1 }

/-- Consuming an expiration event from the channel (the `<-timer.C` that a
caller blocks on, or the timer case of the select in RecvFor): yields the
epoch tag of the event, if any, and empties the channel. -/
def timerConsume (t : GoTimer) : Option Nat × GoTimer :=
  (t.pending, { t with pending := none })

/-- The drain-then-rearm protocol used before every reuse of the wait timer
(embed.go lines 44-47) and of the receive timer (embed.go lines 104-108):
call `Stop`; if `Stop` returned false and the channel holds an item, drain
it; then `Reset`. -/
def drainThenReset (t : GoTimer) : GoTimer :=
  let st := timerStop t
  let t1 := if !st.1 && st.2.pending.isSome then timerDrain st.2 else st.2
  timerReset t1

/-- The invariant the library maintains on its reused timers: while a timer
is armed and has not fired, its channel is empty (every rearming goes
through `drainThenReset`, and a firing deactivates the timer as it deposits
its event). -/
def TimerInv (t : GoTimer) : Prop :=
  t.active = true → t.pending = none

/-- A panic value as seen by the recover handler of the goroutine wrapper:
either the dedicated cancellation value `Stop\x7b\x7d`, or any other (foreign)
value. -/
inductive PanicVal (p : Type) where
  | stopVal
  | otherVal (v : p)

/-- How the actor body exits: a normal return, or a panic carrying some
value. -/
inductive BodyExit (p : Type) where
  | normal
  | panicked (v : PanicVal p)

/-- The runtime resources owned by one coroutine task, as torn down by the
deferred cleanup block of the goroutine wrappers in start.go. -/
structure RtState (a : Type) where
  e : Embeddable a
  waitTimer : GoTimer
  receiveTimer : GoTimer
  receiverClosed : Bool

/-- The deferred cleanup block shared by both goroutine wrappers
(start.go lines 55-62 and 102-109): set `running` to false, stop both
timers, close the wake channel. -/
def cleanupRun {a : Type} (s : RtState a) : RtState a :=
  { e := { s.e with running := false },
    waitTimer := (timerStop s.waitTimer).2,
    receiveTimer := (timerStop s.receiveTimer).2,
    receiverClosed := true }

/-- The recover handler of the goroutine wrappers (start.go lines 64-71 and
111-118): a nil recover (normal return) ends the task silently; a recovered
`Stop\x7b\x7d` value is recognised as the designed cancellation and suppressed;
any other recovered value is re-raised. The result is what escapes the
task. -/
def recoverHandler {p : Type} (x : BodyExit p) : Option (PanicVal p) :=
  match x with
  | BodyExit.normal => none
  | BodyExit.panicked PanicVal.stopVal => none
  | BodyExit.panicked (PanicVal.otherVal v) => some (PanicVal.otherVal v)

/-- The full deferred wrapper around the actor body: run the cleanup block,
then the recover handler. Returns the torn-down state and what escapes. -/
def goroutineWrapper {a p : Type} (s : RtState a) (x : BodyExit p) :
    RtState a × Option (PanicVal p) :=
  (cleanupRun s, recoverHandler x)

/-- Observable events of one execution of the deferred wrapper, in order.
Go runs a deferred function exactly once per goroutine exit, whatever the
exit path; the cleanup block is the first thing the deferred function does,
and only after it does the recover handler either end the task silently or
re-raise. -/
inductive WEvent (p : Type) where
  | cleanupDone
  | exitSilent
  | repanic (v : PanicVal p)

/-- Whether a wrapper event is the completion of the cleanup block. -/
def isCleanupDone {p : Type} : WEvent p → Bool
  | WEvent.cleanupDone => true
  | _ => false

/-- The ordered event trace of the deferred wrapper for a given body exit. -/
def wrapperEvents {p : Type} (x : BodyExit p) : List (WEvent p) :=
  WEvent.cleanupDone ::
    (match recoverHandler x with
     | some v => [WEvent.repanic v]
     | none => [WEvent.exitSilent])

/-- Program counter of the actor task inside its `Recv` loop (the body that
repeatedly calls `Embeddable.Recv`, embed.go lines 62-83). `idle`: about to
enter `Recv` (or just returned from it). `waiting`: blocked on
`<-e.receiver`. `woken`: the rendezvous completed, about to run the
post-wake code (lines 72-81). `unwound`: the call panicked with `Stop\x7b\x7d`.
`crashed`: the head access `e.mailbox[0]` at line 79 indexed an empty
slice (a runtime index-out-of-range panic, a foreign unwind). -/
inductive APC where
  | idle
  | waiting
  | woken
  | unwound
  | crashed
deriving DecidableEq

/-- State of the interleaving model: the shared mailbox and `running` flag,
the program counter of the actor task, the messages the `Recv` loop has
delivered so far, whether the terminal cleanup has closed the wake channel
(start.go lines 62 and 109), and whether some sender has panicked with send
on closed channel at its notify. -/
structure Sys (a : Type) where
  mailbox : List a
  running : Bool
  apc : APC
  delivered : List a
  closed : Bool
  senderPanic : Bool
deriving DecidableEq

/-- Atomic events of the interleaving model. `enq v` is the locked append of
`embeddableRef.Send` (embed.go lines 189-191); `notify` is a non-blocking
send on the wake channel, the select-with-default of `embeddableRef.Send`
(lines 195-198) and of `embeddableRef.Stop` (lines 229-232); `stopSet` is
the `running = false` write of `embeddableRef.Stop` (line 226); `closeChan`
is the `close(receiver)` performed by the terminal cleanup after the actor
task has ended (start.go lines 62 and 109); `act` is one atomic step of the
actor task itself. -/
inductive Ev (a : Type) where
  | enq (v : a)
  | notify
  | stopSet
  | closeChan
  | act

/-- One atomic transition of the interleaving model. The `act` step follows
the source of `Embeddable.Recv` exactly: at `idle`, check `running` (line
63, unwind if false), then under the lock either dequeue the head (lines
79-81) or release the lock and block on the wake channel (line 70); at
`woken`, re-check `running` (line 72, unwind if false), then retake the lock
and access `e.mailbox[0]` (line 79) with no emptiness re-check, which on an
empty mailbox is an index-out-of-range crash. A `notify` on a closed wake
channel makes the sending goroutine panic with send on closed channel (the
send case of the select is ready on a closed channel and wins over
default); on an open channel it is delivered only when the actor task is
blocked (`waiting`), exactly like an unbuffered channel send under
select-with-default, and is otherwise skipped. -/
def step {a : Type} (s : Sys a) : Ev a → Sys a
  | Ev.enq v => { s with mailbox := s.mailbox ++ [v] }
  | Ev.notify =>
      if s.closed then { s with senderPanic := true }
      else if s.apc = APC.waiting then { s with apc := APC.woken } else s
  | Ev.stopSet => { s with running := false }
  | Ev.closeChan => { s with closed := true }
  | Ev.act =>
      match s.apc with
      | APC.idle =>
          if s.running = false then { s with apc := APC.unwound }
          else
            match s.mailbox with
            | [] => { s with apc := APC.waiting }
            | m :: rest =>
                { s with mailbox := rest, delivered := s.delivered ++ [m] }
      | APC.waiting => s
      | APC.woken =>
          if s.running = false then { s with apc := APC.unwound }
          else
            match s.mailbox with
            | [] => { s with apc := APC.crashed }
            | m :: rest =>
                { s with mailbox := rest, delivered := s.delivered ++ [m],
                         apc := APC.idle }
      | APC.unwound => s
      | APC.crashed => s

/-- Running the interleaving model over a schedule of atomic events. -/
def run {a : Type} (s : Sys a) (evs : List (Ev a)) : Sys a :=
  evs.foldl step s

/-- Initial state of the interleaving model: empty mailbox, running actor at
the top of its `Recv` loop, nothing delivered. -/
def sysInit : Sys Nat :=
  { mailbox := [], running := true, apc := APC.idle, delivered := [],
    closed := false, senderPanic := false }

/-- After an external stop has landed while the actor task is suspended in
`Recv`, the reachable shapes of the system: `running` stays false, the task
only moves between `waiting`, `woken` and `unwound`, and the delivered list
never grows. -/
def StoppedInv {a : Type} (d0 : List a) (s : Sys a) : Prop :=
  s.running = false ∧
  (s.apc = APC.waiting ∨ s.apc = APC.woken ∨ s.apc = APC.unwound) ∧
  s.delivered = d0

/-- A concrete interleaving of one sender and the `Recv` loop, legal for the
source: `Send(7)` appends under the lock but is preempted before its
non-blocking notify; the actor dequeues 7 on the fast path and re-enters
`Recv`, finds the mailbox empty and blocks; the delayed notify of `Send(7)`
then completes the rendezvous; the woken actor sees `running` still true and
reaches the head access with an empty mailbox. -/
def staleWakeTrace : List (Ev Nat) :=
  [Ev.enq 7, Ev.act, Ev.act, Ev.notify, Ev.act]

/-- A second legal interleaving with two senders: the notify of `Send(1)`
fires while the actor is not blocked and is skipped; both messages are
consumed on the fast path; the actor then blocks, and the delayed notify of
`Send(2)` wakes it onto an empty mailbox with `running` still true. -/
def staleWakeTrace2 : List (Ev Nat) :=
  [Ev.enq 1, Ev.notify, Ev.act, Ev.enq 2, Ev.act, Ev.act, Ev.notify, Ev.act]

/-- The shared-state effect of a sequence of completed `Send` calls by one
producer, in call order (the state component of `embeddableRef.Send` is its
locked enqueue, independent of the channel). -/
def sendAll {a : Type} (e : Embeddable a) (msgs : List a) : Embeddable a :=
  msgs.foldl sendEnqueue e

/-- Repeatedly dequeue with `RecvImmediate`, collecting the returned
messages in order; stops at the first call that does not return a message. -/
def drainLoop {a : Type} : Nat → Embeddable a → List a
  | 0, _ => []
  | Nat.succ n, e =>
      match Embeddable.RecvImmediate e with
      | RecvRes.ret (some m) _ e1 => m :: drainLoop n e1
      | _ => []

theorem sendAll_mailbox {a : Type} (msgs : List a) (e : Embeddable a) :
    (sendAll e msgs).mailbox = e.mailbox ++ msgs := by
  induction msgs generalizing e with
  | nil => simp [sendAll]
  | cons m rest ih =>
      show (sendAll (sendEnqueue e m) rest).mailbox = _
      rw [ih]
      simp [sendEnqueue]

theorem sendAll_running {a : Type} (msgs : List a) (e : Embeddable a) :
    (sendAll e msgs).running = e.running := by
  induction msgs generalizing e with
  | nil => rfl
  | cons m rest ih =>
      show (sendAll (sendEnqueue e m) rest).running = _
      rw [ih]
      rfl

theorem drainLoop_eq_take {a : Type} (n : Nat) (e : Embeddable a)
    (h : e.running = true) : drainLoop n e = e.mailbox.take n := by
  induction n generalizing e with
  | zero => simp [drainLoop]
  | succ n ih =>
      cases hm : e.mailbox with
      | nil => simp [drainLoop, Embeddable.RecvImmediate, takeHead, h, hm]
      | cons m rest =>
          have hrec : Embeddable.RecvImmediate e =
              RecvRes.ret (some m) true { e with mailbox := rest } := by
            simp [Embeddable.RecvImmediate, takeHead, h, hm]
          simp [drainLoop, hrec, hm]
          exact ih _ h

theorem stoppedInv_step {a : Type} (d0 : List a) (s : Sys a) (ev : Ev a)
    (h : StoppedInv d0 s) : StoppedInv d0 (step s ev) := by
  obtain ⟨hr, hpc, hd⟩ := h
  cases ev with
  | enq v => exact ⟨hr, hpc, hd⟩
  | notify =>
      by_cases hc : s.closed = true
      · have : step s Ev.notify = { s with senderPanic := true } := by
          simp [step, hc]
        rw [this]
        exact ⟨hr, hpc, hd⟩
      · by_cases hw : s.apc = APC.waiting
        · have : step s Ev.notify = { s with apc := APC.woken } := by
            simp [step, hc, hw]
          rw [this]
          exact ⟨hr, Or.inr (Or.inl rfl), hd⟩
        · have : step s Ev.notify = s := by simp [step, hc, hw]
          rw [this]
          exact ⟨hr, hpc, hd⟩
  | stopSet => exact ⟨rfl, hpc, hd⟩
  | closeChan => exact ⟨hr, hpc, hd⟩
  | act =>
      rcases hpc with h1 | h1 | h1
      · have : step s Ev.act = s := by simp [step, h1]
        rw [this]
        exact ⟨hr, Or.inl h1, hd⟩
      · have : step s Ev.act = { s with apc := APC.unwound } := by
          simp [step, h1, hr]
        rw [this]
        exact ⟨hr, Or.inr (Or.inr rfl), hd⟩
      · have : step s Ev.act = s := by simp [step, h1]
        rw [this]
        exact ⟨hr, Or.inr (Or.inr h1), hd⟩

theorem stoppedInv_run {a : Type} (d0 : List a) (s : Sys a)
    (evs : List (Ev a)) (h : StoppedInv d0 s) : StoppedInv d0 (run s evs) := by
  induction evs generalizing s with
  | nil => exact h
  | cons ev rest ih => exact ih (step s ev) (stoppedInv_step d0 s ev h)

theorem timerInv_new : TimerInv ⟨0, true, none⟩ := by
  intro _
  rfl

theorem timerInv_fire (t : GoTimer) : TimerInv (timerFire t) := by
  intro h
  by_cases ha : t.active = true
  · simp [timerFire, ha] at h
  · simp [timerFire, ha] at h

theorem timerInv_consume (t : GoTimer) : TimerInv (timerConsume t).2 := by
  intro _
  rfl

theorem timerInv_drainThenReset (t : GoTimer) (h : TimerInv t) :
    TimerInv (drainThenReset t) := by
  intro _
  cases ha : t.active with
  | true =>
      have hp := h ha
      simp [drainThenReset, timerStop, timerDrain, timerReset, ha, hp]
  | false =>
      cases hp : t.pending with
      | none => simp [drainThenReset, timerStop, timerDrain, timerReset, ha, hp]
      | some k => simp [drainThenReset, timerStop, timerDrain, timerReset, ha, hp]

/-- Counterexample to claim C1 as stated. The claim says Send never fails
the sender, including when the actor has already terminated; but the
terminal cleanup closes the wake channel (start.go lines 62 and 109), and a
later Send reaches its select with the channel closed: the send case of a
select on a closed channel is ready (it proceeds by panicking) and wins
over default, so the sender panics with send on closed channel. At the
concrete input: cleanup marks the channel closed; a Send on the terminated
actor still appends the message (the append precedes the select) but its
notify panics; and in the step model a notify on the closed channel makes
the sending goroutine panic. -/
theorem send_after_termination_panics :
    (cleanupRun (⟨⟨1, "n", [], true⟩, ⟨0, true, none⟩, ⟨0, true, none⟩,
        false⟩ : RtState Nat)).receiverClosed = true ∧
    embeddableRef.Send (⟨1, "n", [], false⟩ : Embeddable Nat) 5
        ⟨true, false⟩ =
      (⟨1, "n", [5], false⟩, NotifyRes.panicked) ∧
    step (⟨[5], false, APC.unwound, [], true, false⟩ : Sys Nat) Ev.notify =
      ⟨[5], false, APC.unwound, [], true, true⟩ :=
  ⟨rfl, rfl, rfl⟩

/-- Claim C1 as amended: Send always appends the message at the tail and
never reads `running`, so it never rejects based on the running state; as
long as the terminal cleanup has not yet closed the wake channel, Send
succeeds and never blocks the sender (its notify is skipped when no waiter
is blocked and completes the rendezvous when one is); but once cleanup has
closed the wake channel, the notify panics with send on closed channel,
failing the sender (the message is still appended first). -/
theorem send_ok_while_receiver_open (a : Type) (e : Embeddable a) (v : a)
    (ch : WakeChan) (s : Sys a) :
    (embeddableRef.Send e v ch).1 = { e with mailbox := e.mailbox ++ [v] } ∧
    (embeddableRef.Send e v ch).1.running = e.running ∧
    (embeddableRef.Send { e with running := false } v ch).1 =
      { e with running := false, mailbox := e.mailbox ++ [v] } ∧
    (ch.closedFlag = false →
        (embeddableRef.Send e v ch).2 ≠ NotifyRes.panicked) ∧
    (ch.closedFlag = false → ch.waiterBlocked = false →
        (embeddableRef.Send e v ch).2 = NotifyRes.skipped) ∧
    (ch.closedFlag = true →
        (embeddableRef.Send e v ch).2 = NotifyRes.panicked) ∧
    (step s (Ev.enq v)).mailbox = s.mailbox ++ [v] ∧
    (step s (Ev.enq v)).running = s.running ∧
    (step s (Ev.enq v)).apc = s.apc ∧
    (s.closed = false → s.apc ≠ APC.waiting → step s Ev.notify = s) ∧
    (s.closed = false → s.apc = APC.waiting →
        step s Ev.notify = { s with apc := APC.woken }) := by
  refine ⟨rfl, rfl, rfl, ?_, ?_, ?_, rfl, rfl, rfl, ?_, ?_⟩
  · intro hc
    cases hw : ch.waiterBlocked <;>
      simp [embeddableRef.Send, tryNotify, hc, hw]
  · intro hc hw
    simp [embeddableRef.Send, tryNotify, hc, hw]
  · intro hc
    simp [embeddableRef.Send, tryNotify, hc]
  · intro hc hw
    simp [step, hc, hw]
  · intro hc hw
    simp [step, hc, hw]

/-- Witness for the amended C1 at a concrete input: on an open channel with
no blocked waiter, Send on a terminated actor does not panic and takes the
default branch immediately. -/
theorem send_ok_while_receiver_open_witness :
    (embeddableRef.Send (⟨0, "x", [], false⟩ : Embeddable Nat) 3
        ⟨false, false⟩).2 = NotifyRes.skipped :=
  (send_ok_while_receiver_open Nat ⟨0, "x", [], false⟩ 3 ⟨false, false⟩
    sysInit).2.2.2.2.1 rfl rfl

/-- Claim C2: at every suspending checkpoint, an external stop delivered
while the actor is suspended makes the checkpoint unwind instead of
returning a value, even if a message was enqueued concurrently. In the step
model, once `running` is false while the actor is suspended in `Recv`, no
schedule ever delivers another message and the task can only stay suspended
or unwind (never reach the dequeue), and a wake followed by the actor step
unwinds at once; in the per-call embeddings, `RecvFor` with a positive
duration unwinds after its wake whenever a stop arrived during the wait,
even when messages arrived concurrently, and `Pause` unwinds whenever a
stop arrived during the pause. The open-channel premise of the wake-then-act
conjunct reflects the source: the wake channel is closed only by the
terminal cleanup, which runs after the actor task has ended, so it is open
whenever the task is still suspended. -/
theorem stop_takes_precedence (a : Type) :
    (∀ (s : Sys a) (evs : List (Ev a)), s.running = false →
        s.apc = APC.waiting ∨ s.apc = APC.woken →
        (run s evs).delivered = s.delivered ∧
        ((run s evs).apc = APC.waiting ∨ (run s evs).apc = APC.woken ∨
          (run s evs).apc = APC.unwound)) ∧
    (∀ s : Sys a, s.closed = false → s.running = false →
        s.apc = APC.waiting →
        step (step s Ev.notify) Ev.act = { s with apc := APC.unwound }) ∧
    (∀ (e : Embeddable a) (d : Int) (env : WaitEnv a), 0 < d →
        env.stopRequested = true → e.mailbox = [] →
        Embeddable.RecvFor e d env = RecvRes.unwind) ∧
    (∀ e : Embeddable a, Embeddable.Pause e true = none) := by
  refine ⟨?_, ?_, ?_, ?_⟩
  · intro s evs hr hpc
    have h : StoppedInv s.delivered (run s evs) := by
      refine stoppedInv_run s.delivered s evs ⟨hr, ?_, rfl⟩
      rcases hpc with h | h
      · exact Or.inl h
      · exact Or.inr (Or.inl h)
    exact ⟨h.2.2, h.2.1⟩
  · intro s hc hr hw
    have h1 : step s Ev.notify = { s with apc := APC.woken } := by
      simp [step, hc, hw]
    rw [h1]
    simp [step, hr]
  · intro e d env hd henv hm
    unfold Embeddable.RecvFor
    by_cases hr : e.running = false
    · simp [hr]
    · have hd0 : ¬d ≤ 0 := by omega
      simp [hr, hd0, hm, wakeState, henv]
  · intro e
    unfold Embeddable.Pause
    by_cases hr : e.running = false
    · simp [hr]
    · simp [hr]

/-- Witness for C2 at a concrete input: RecvFor over a positive duration
unwinds when a stop arrived during the wait even though a message also
arrived concurrently. -/
theorem stop_takes_precedence_witness :
    Embeddable.RecvFor (⟨3, "w", [], true⟩ : Embeddable Nat) 100 ⟨[9], true⟩ =
      RecvRes.unwind :=
  (stop_takes_precedence Nat).2.2.1 ⟨3, "w", [], true⟩ 100 ⟨[9], true⟩
    (by decide) rfl rfl

/-- Claim C3: on every exit path of the actor body (normal return,
cancellation unwind, foreign panic) the terminal cleanup runs exactly once,
before any unwind leaves the task: the wrapped state ends with `running`
false, both timers stopped and the wake channel closed, and in the ordered
wrapper trace the cleanup block appears exactly once and first. -/
theorem cleanup_exactly_once (a p : Type) (s : RtState a) (x : BodyExit p) :
    (goroutineWrapper s x).1.e.running = false ∧
    (goroutineWrapper s x).1.waitTimer.active = false ∧
    (goroutineWrapper s x).1.receiveTimer.active = false ∧
    (goroutineWrapper s x).1.receiverClosed = true ∧
    (wrapperEvents x).countP isCleanupDone = 1 ∧
    (wrapperEvents x).head? = some WEvent.cleanupDone := by
  refine ⟨rfl, rfl, rfl, rfl, ?_, rfl⟩
  cases x with
  | normal => rfl
  | panicked v =>
      cases v with
      | stopVal => rfl
      | otherVal w => rfl

/-- Claim C4: the runtime wrapper suppresses exactly one kind of unwind. A
panic carrying the cancellation value ends the task silently (nothing
escapes), while a panic carrying any other value is re-raised, and the
re-raise comes after the cleanup event in the wrapper trace. -/
theorem only_cancellation_suppressed (p : Type) (v : p) :
    recoverHandler (BodyExit.panicked (PanicVal.stopVal : PanicVal p)) =
      none ∧
    recoverHandler (BodyExit.panicked (PanicVal.otherVal v)) =
      some (PanicVal.otherVal v) ∧
    wrapperEvents (BodyExit.panicked (PanicVal.otherVal v)) =
      [WEvent.cleanupDone, WEvent.repanic (PanicVal.otherVal v)] ∧
    wrapperEvents (BodyExit.panicked (PanicVal.stopVal : PanicVal p)) =
      [WEvent.cleanupDone, WEvent.exitSilent] :=
  ⟨rfl, rfl, rfl, rfl⟩

/-- Claim C5: mailbox FIFO order. Send appends at the tail, every receive
removes the head, and after any sequence of completed Send calls by one
producer the messages drain out in exactly the order they were sent,
following any messages already in the mailbox. -/
theorem mailbox_fifo (a : Type) (e : Embeddable a) (msgs : List a)
    (h : e.running = true) :
    (∀ (v : a) (ch : WakeChan),
        (embeddableRef.Send e v ch).1.mailbox = e.mailbox ++ [v]) ∧
    (∀ (m : a) (rest : List a), e.mailbox = m :: rest →
        Embeddable.RecvImmediate e =
          RecvRes.ret (some m) true { e with mailbox := rest }) ∧
    drainLoop (e.mailbox ++ msgs).length (sendAll e msgs) =
      e.mailbox ++ msgs := by
  refine ⟨fun v ch => rfl, ?_, ?_⟩
  · intro m rest hm
    simp [Embeddable.RecvImmediate, takeHead, h, hm]
  · have h2 : (sendAll e msgs).running = true := by
      rw [sendAll_running]
      exact h
    rw [drainLoop_eq_take _ _ h2, sendAll_mailbox, List.take_length]

/-- Witness for C5 at a concrete input: three messages sent into an empty
running mailbox drain out in send order. -/
theorem mailbox_fifo_witness :
    drainLoop (((⟨1, "w", [], true⟩ : Embeddable Nat).mailbox ++
        [10, 20, 30]).length)
      (sendAll ⟨1, "w", [], true⟩ [10, 20, 30]) =
      (⟨1, "w", [], true⟩ : Embeddable Nat).mailbox ++ [10, 20, 30] :=
  (mailbox_fifo Nat ⟨1, "w", [], true⟩ [10, 20, 30] rfl).2.2

/-- Claim C6: for every non-positive duration and every actor state,
RecvFor behaves exactly as RecvImmediate: same result pair, same mailbox
mutation, same unwind when not running, and the wait oracle is never
consulted (no suspension). -/
theorem recvFor_nonpos_eq_recvImmediate (a : Type) (e : Embeddable a)
    (d : Int) (env : WaitEnv a) (h : d ≤ 0) :
    Embeddable.RecvFor e d env = Embeddable.RecvImmediate e := by
  unfold Embeddable.RecvFor
  by_cases hr : e.running = false
  · simp [hr, Embeddable.RecvImmediate]
  · simp [hr, h]

/-- Witness for C6 at a concrete input: duration zero on a non-empty
mailbox. -/
theorem recvFor_nonpos_witness :
    Embeddable.RecvFor (⟨2, "x", [4], true⟩ : Embeddable Nat) 0 ⟨[8], true⟩ =
      Embeddable.RecvImmediate ⟨2, "x", [4], true⟩ :=
  recvFor_nonpos_eq_recvImmediate Nat ⟨2, "x", [4], true⟩ 0 ⟨[8], true⟩
    (by decide)

/-- Claim C7: before every rearming of a reused timer (the wait timer in
Pause, the receive timer in RecvFor), any unconsumed expiration event of a
previous arming is fully drained. Under the invariant the library maintains
on its timers (an armed, unfired timer has an empty channel), the
drain-then-reset protocol leaves the channel empty, starts a fresh arming
epoch, and the only event that can subsequently be consumed carries the
epoch of the current arming, so a stale firing is never mistaken for the
current expiration. -/
theorem timer_drain_before_rearm (t : GoTimer) (h : TimerInv t) :
    (drainThenReset t).pending = none ∧
    (drainThenReset t).active = true ∧
    (drainThenReset t).epoch = t.epoch + 1 ∧
    (timerFire (drainThenReset t)).pending = some (t.epoch + 1) ∧
    (timerConsume (timerFire (drainThenReset t))).1 = some (t.epoch + 1) := by
  cases ha : t.active with
  | true =>
      have hp := h ha
      simp [drainThenReset, timerStop, timerDrain, timerReset, timerFire,
        timerConsume, ha, hp]
  | false =>
      cases hp : t.pending with
      | none =>
          simp [drainThenReset, timerStop, timerDrain, timerReset, timerFire,
            timerConsume, ha, hp]
      | some k =>
          simp [drainThenReset, timerStop, timerDrain, timerReset, timerFire,
            timerConsume, ha, hp]

/-- Witness for C7 at a concrete input: a fired, undrained timer (epoch 4,
stale event from epoch 4 in the channel) is fully drained by the protocol. -/
theorem timer_drain_before_rearm_witness :
    (drainThenReset ⟨4, false, some 4⟩).pending = none :=
  (timer_drain_before_rearm ⟨4, false, some 4⟩ (by intro h; cases h)).1

/-- Claim C8 concerns the requirement that after any wake the `running`
read and the mailbox-empty check happen under one critical section so that
no stale-result race exists. The code violates it in `Recv`: after the wake
it checks `running` before retaking the lock and then indexes the mailbox
head with no emptiness re-check at all. This theorem runs a legal
interleaving of the source in the step model: the notify of the first Send
is skipped (the actor is not blocked), both messages are consumed on the
fast path, and the delayed notify of the second Send then wakes the actor
onto an empty mailbox with `running` still true, reaching the
index-out-of-range crash of `e.mailbox[0]`. -/
theorem recv_postwake_check_race_crash :
    (run sysInit staleWakeTrace2).apc = APC.crashed ∧
    (run sysInit staleWakeTrace2).delivered = [1, 2] ∧
    (run sysInit staleWakeTrace2).mailbox = [] ∧
    (run sysInit staleWakeTrace2).running = true :=
  ⟨rfl, rfl, rfl, rfl⟩

/-- Claim C9: stopping a non-running actor is non-fatal. The external
`embeddableRef.Stop` logs a diagnostic with the id and the name of the
actor and returns with the state unchanged and no unwind; the self
`Embeddable.Stop` logs the same diagnostic, and its unwind is the dedicated
cancellation value, which the runtime wrapper suppresses (nothing escapes
the task). -/
theorem stop_on_stopped_diagnostic (a : Type) (e : Embeddable a)
    (h : e.running = false) :
    (embeddableRef.Stop e).1 = e ∧
    (embeddableRef.Stop e).2 = [⟨e.id, e.name⟩] ∧
    (Embeddable.Stop e).2.1 = [⟨e.id, e.name⟩] ∧
    recoverHandler (BodyExit.panicked (PanicVal.stopVal : PanicVal a)) =
      none := by
  refine ⟨?_, ?_, ?_, rfl⟩
  · simp [embeddableRef.Stop, h]
  · simp [embeddableRef.Stop, h]
  · simp [Embeddable.Stop, h]

/-- Witness for C9 at a concrete input: stopping a stopped actor with id 4
and name w emits exactly the diagnostic record (4, w). -/
theorem stop_on_stopped_witness :
    (embeddableRef.Stop (⟨4, "w", [], false⟩ : Embeddable Nat)).2 =
      [⟨4, "w"⟩] :=
  (stop_on_stopped_diagnostic Nat ⟨4, "w", [], false⟩ rfl).2.1

/-- Claim C10 asserts that the head access of `Recv` after a wake never
indexes an empty mailbox. The code violates it: this theorem runs a legal
interleaving in the step model in which Send(7) appends under the lock but
is preempted before its non-blocking notify, the actor consumes 7 on the
fast path and blocks again, and the delayed notify then wakes the actor
onto an empty mailbox with `running` still true, so the next actor step is
the index-out-of-range crash at the `e.mailbox[0]` access. -/
theorem recv_woken_empty_mailbox_crash :
    (run sysInit staleWakeTrace).apc = APC.crashed ∧
    (run sysInit staleWakeTrace).delivered = [7] ∧
    (run sysInit staleWakeTrace).mailbox = [] ∧
    (run sysInit staleWakeTrace).running = true :=
  ⟨rfl, rfl, rfl, rfl⟩
